import Mathlib

/-!
Verification of the medinote consultation/transcription/note workflow.

Shallow embedding of the TypeScript sources:
* `src/consult-to-soap-main/src/pages/ConsultationPage.tsx`
  (`handleTranscriptionComplete`, `handleSaveNote`)
* `src/consult-to-soap-main/src/components/recording/AudioRecorder.tsx`
  (`transcribeAudio`, `transcribeWithAssemblyAIStreaming`)
* `src/consult-to-soap-main/supabase/functions/transcribe-assemblyai/index.ts`
  and `transcribe-audio/index.ts` (the status poll loop)
* `src/consult-to-soap-main/supabase/functions/generate-soap-note/index.ts`
  and `src/unnamed/part_004` (JSON-parse step of the note generators)
* `src/consult-to-soap-main/src/components/dashboard/NewConsultationDialog.tsx`
  (`handleSubmit`) together with the table defaults of
  `supabase/migrations/20250904052018_...sql`.

External primitives (uuid generation, the database, the HTTP vendor, the
platform `JSON.parse`) are modelled as explicit inputs: uuids become `Nat`
parameters required to be fresh, tables become Lean lists of rows, vendor
responses and `JSON.parse` results become input values.
-/

namespace Medinote

/-- ECMAScript whitespace as removed by `String.prototype.trim`:
TAB, LF, VT, FF, CR, SP, NBSP, the Unicode space separators,
the line separators U+2028/U+2029, and the BOM U+FEFF. -/
def isJsWhitespace (c : Char) : Bool :=
  c = ' ' || c = '\t' || c = '\n' || c = '\r' ||
  c.val = 11 || c.val = 12 || c.val = 160 || c.val = 0x1680 ||
  (0x2000 ≤ c.val && c.val ≤ 0x200A) ||
  c.val = 0x2028 || c.val = 0x2029 || c.val = 0x202F || c.val = 0x205F ||
  c.val = 0x3000 || c.val = 0xFEFF

/-- JavaScript `s.trim()`: strip leading and trailing whitespace. -/
def jsTrim (s : String) : String :=
  ⟨((s.data.dropWhile isJsWhitespace).reverse.dropWhile isJsWhitespace).reverse⟩

/-- Minimal JSON value model (for note bodies and `extracted_entities`). -/
inductive Json where
  | null
  | bool (b : Bool)
  | num (n : Int)
  | str (s : String)
  | arr (elems : List Json)
  | obj (fields : List (String × Json))

/-- Field lookup on a JSON object (first binding wins, as in JS objects
built from distinct literal keys). -/
def Json.getField : Json → String → Option Json
  | .obj fields, k => fields.lookup k
  | _, _ => none

/-- Does the JSON value carry a string at field `k`? -/
def Json.stringFieldAt (j : Json) (k : String) : Bool :=
  match j.getField k with
  | some (.str _) => true
  | _ => false

/-- "A note object with four string fields": the body has string values at
`subjective`, `objective`, `assessment` and `plan`. -/
def hasFourStringFields (j : Json) : Bool :=
  j.stringFieldAt "subjective" && j.stringFieldAt "objective" &&
  j.stringFieldAt "assessment" && j.stringFieldAt "plan"

/-! ## medical_notes table and `handleTranscriptionComplete`
(`ConsultationPage.tsx` lines 98-186, schema from migration
`20250904052018` lines 26-38). -/

/-- One row of `public.medical_notes`.  `id` is the primary key
(`gen_random_uuid()` default), modelled as a `Nat`; there is no UNIQUE
constraint on `consultation_id` in either migration. -/
structure MedicalNoteRow where
  id : Nat
  consultation_id : Nat
  subjective : String
  objective : String
  assessment : String
  plan : String
  raw_transcript : String
  extracted_entities : Json
  is_reviewed : Bool

/-- supabase-js `.upsert(payload)` with no `onConflict` option:
`INSERT ... ON CONFLICT (id) DO UPDATE` — the conflict target is the
primary key `id`.  If a row with `row.id` exists it is replaced,
otherwise the row is appended. -/
def upsertOnPrimaryKey (table : List MedicalNoteRow) (row : MedicalNoteRow) :
    List MedicalNoteRow :=
  if table.any (fun r => r.id = row.id) then
    table.map (fun r => if r.id = row.id then row else r)
  else
    table ++ [row]

/-- Subjective placeholder written on the empty-transcript branch
(`ConsultationPage.tsx` line 108). -/
def placeholderText : String :=
  "Audio recorded but transcription failed. Please review the audio manually."

/-- Result of one `handleTranscriptionComplete` call: the
`medical_notes` table afterwards, the row returned by
`.select().single()` and set into component state, and whether an
exception escaped the function (the whole body is inside try/catch, the
catch only shows a toast). -/
structure HTCResult where
  notes : List MedicalNoteRow
  stored : Option MedicalNoteRow
  threw : Bool

/-- `handleTranscriptionComplete(transcript, audioBlob)`
(`ConsultationPage.tsx` lines 98-186).  `cid` is the consultation id from
the route, `freshId` the uuid the database generates for the inserted
row (no `id` is in the payload), `dbError` whether the upsert fails.
The `audioBlob` argument is unused by the source on both write paths.
Branch condition is line 105: `!transcript || transcript.trim().length === 0`;
the non-empty branch stores `simplified || ''` with `simplified = transcript`
(lines 139, 146) and `raw_transcript: transcript` (line 150). -/
def handleTranscriptionComplete (cid : Nat) (transcript : String)
    (notes : List MedicalNoteRow) (freshId : Nat) (dbError : Bool) : HTCResult :=
  if transcript = "" ∨ (jsTrim transcript).length = 0 then
    if dbError then ⟨notes, none, false⟩
    else
      let row : MedicalNoteRow :=
        ⟨freshId, cid, placeholderText, "", "", "", "Transcription failed",
          Json.obj [], false⟩
      ⟨upsertOnPrimaryKey notes row, some row, false⟩
  else
    let simplified := transcript
    if dbError then ⟨notes, none, false⟩
    else
      let row : MedicalNoteRow :=
        ⟨freshId, cid, (if simplified = "" then "" else simplified),
          "", "", "", transcript, Json.obj [], false⟩
      ⟨upsertOnPrimaryKey notes row, some row, false⟩

/-! ## `handleSaveNote` (`ConsultationPage.tsx` lines 188-203). -/

/-- The four SOAP fields carried by the note being saved, plus the id of
the row to update. -/
structure SoapUpdate where
  id : Nat
  subjective : String
  objective : String
  assessment : String
  plan : String

/-- Effect of the SQL `UPDATE ... WHERE id = note.id` on one row: the
update list names only the four SOAP columns and `is_reviewed: true`
(lines 191-197), so all other columns keep their value; rows with a
different id are untouched. -/
def applySaveNote (note : SoapUpdate) (r : MedicalNoteRow) : MedicalNoteRow :=
  if r.id = note.id then
    { r with
        subjective := note.subjective
        objective := note.objective
        assessment := note.assessment
        plan := note.plan
        is_reviewed := true }
  else r

/-- `handleSaveNote(note)` as its effect on the `medical_notes` table. -/
def handleSaveNote (table : List MedicalNoteRow) (note : SoapUpdate) :
    List MedicalNoteRow :=
  table.map (applySaveNote note)

/-! ## AudioRecorder transcription pipeline
(`AudioRecorder.tsx` lines 158-176 and 248-303). -/

/-- Outcome of the fetch to the backend transcription function inside
`transcribeWithAssemblyAIStreaming`: HTTP failure (`!res.ok`, body text),
a JSON body with an `error` field, or a JSON body whose `text` field
(defaulted to `''` when absent, line 290) is `t`. -/
inductive BackendResult where
  | httpError (body : String)
  | errorField (msg : String)
  | text (t : String)

/-- What `transcribeWithAssemblyAIStreaming` does after the backend
responds: either it calls `onTranscriptionComplete` (note creation) with
some transcript, or it throws an error message. -/
inductive StreamingStep where
  | callNote (transcript : String)
  | threw (msg : String)

/-- Placeholder substituted when the backend returns empty text
(`AudioRecorder.tsx` line 292). -/
def noSpeechPlaceholder : String :=
  "Audio recorded but no speech was detected. Please check audio quality and try again."

/-- `transcribeWithAssemblyAIStreaming` (lines 248-303): `!res.ok` throws
`Backend transcription failed: ${text}`; a body `error` field throws
that message; empty or whitespace-only text substitutes the placeholder
and calls `onTranscriptionComplete`; otherwise the text is passed on. -/
def transcribeWithAssemblyAIStreaming (r : BackendResult) : StreamingStep :=
  match r with
  | .httpError body => .threw ("Backend transcription failed: " ++ body)
  | .errorField msg => .threw msg
  | .text t =>
      if t = "" ∨ (jsTrim t).length = 0 then .callNote noSpeechPlaceholder
      else .callNote t

/-- Observable outcome of `transcribeAudio`: either note creation was
invoked with a transcript, or only an error toast was shown. -/
inductive TranscribeOutcome where
  | noteCreation (transcript : String)
  | errorToast (message : String)

/-- Is the outcome a note-creation call? -/
def TranscribeOutcome.isNoteCreation : TranscribeOutcome → Bool
  | .noteCreation _ => true
  | .errorToast _ => false

/-- `transcribeAudio` (lines 158-176): awaits the streaming helper; its
catch block shows the toast
`Failed to transcribe audio: ${error.message || 'Unknown error'}` and
does not call `onTranscriptionComplete`. -/
def transcribeAudio (r : BackendResult) : TranscribeOutcome :=
  match transcribeWithAssemblyAIStreaming r with
  | .callNote t => .noteCreation t
  | .threw m =>
      .errorToast ("Failed to transcribe audio: " ++
        (if m = "" then "Unknown error" else m))

/-! ## Transcription poll loop
(`transcribe-assemblyai/index.ts` lines 65-94, `transcribe-audio/index.ts`
lines 100-122). -/

/-- Vendor status returned by one poll of
`GET /v2/transcript/:id`: HTTP check failure (`!statusResponse.ok`),
`completed` with text, `error` with message, or anything else
(queued/processing). -/
inductive PollStatus where
  | checkFailed (body : String)
  | completed (text : String)
  | error (msg : String)
  | processing

/-- Result of the poll loop: the returned text, a thrown error message,
or attempt exhaustion. -/
inductive PollResult where
  | success (text : String)
  | failed (msg : String)
  | timeout

/-- The body of `while (attempts < maxAttempts)`, recursing on the
remaining attempt budget; `status n` is the vendor status seen at
attempt counter `n`. Order of checks mirrors the source: response
ok, then `completed`, then `error`, else increment and continue. -/
def pollFuel (status : Nat → PollStatus) : Nat → Nat → PollResult
  | _, 0 => .timeout
  | attempts, fuel + 1 =>
    match status attempts with
    | .checkFailed _ => .failed "Failed to check transcription status"
    | .completed t => .success t
    | .error m => .failed ("Transcription failed: " ++ m)
    | .processing => pollFuel status (attempts + 1) fuel

/-- The poll loop starting at `attempts = 0` with cap `maxAttempts`. -/
def pollLoop (status : Nat → PollStatus) (maxAttempts : Nat) : PollResult :=
  pollFuel status 0 maxAttempts

/-- `const maxAttempts = 30` in `transcribe-assemblyai/index.ts` line 67. -/
def assemblyMaxAttempts : Nat := 30

/-- `const maxAttempts = 60` in `transcribe-audio/index.ts` line 102. -/
def audioMaxAttempts : Nat := 60

/-- HTTP response of the serve handler for each loop outcome: completed
returns 200 with the text; a thrown error (including
`throw new Error('Transcription timeout')` after the loop) is caught and
returned as status 500 with the message. -/
def pollHttpResponse : PollResult → Nat × String
  | .success t => (200, t)
  | .failed m => (500, m)
  | .timeout => (500, "Transcription timeout")

/-! ## Note-generation JSON-parse step.  `JSON.parse` is a platform
primitive; it is modelled by its result (`some v` on success, `none` when
the vendor text is not valid JSON). -/

/-- An HTTP response of an edge function: status plus JSON body. -/
structure FnResponse where
  status : Nat
  body : Json

/-- Marker written into the three non-subjective fields by the fallback
of `src/unnamed/part_004` (lines 102-104). -/
def unparsedMarker : String := "Unable to parse structured data"

/-- Parse step of the OpenAI-based generator `src/unnamed/part_004`
(lines 88-109): on parse success return the parsed note with status 200;
on parse failure return status 200 with the raw vendor `content` in
`subjective` and the other three fields marked unparsed. -/
def openaiParseStep (content : String) (parsed : Option Json) : FnResponse :=
  match parsed with
  | some soapNote => ⟨200, soapNote⟩
  | none =>
      ⟨200, .obj [("subjective", .str content),
                  ("objective", .str unparsedMarker),
                  ("assessment", .str unparsedMarker),
                  ("plan", .str unparsedMarker),
                  ("extracted_entities", .obj [])]⟩

/-- Parse step of the Gemini-based generator
`supabase/functions/generate-soap-note/index.ts` (lines 118-138):
`JSON.parse(processedText)` is not guarded, so a parse failure
propagates to the outer catch, which returns status 500 with an `error`
field carrying the exception message. -/
def geminiParseStep (_processedText : String) (parsed : Option Json)
    (parseErrorMsg : String) : FnResponse :=
  match parsed with
  | some v => ⟨200, v⟩
  | none => ⟨500, .obj [("error", .str parseErrorMsg)]⟩

/-! ## consultations table and `NewConsultationDialog.handleSubmit`
(`NewConsultationDialog.tsx` lines 27-65, schema from migration
`20250904052018` lines 13-23). -/

/-- `status` column of `public.consultations`. -/
inductive ConsultationStatus where
  | in_progress
  | completed
  | cancelled

/-- One row of `public.consultations` (columns relevant here). -/
structure ConsultationRow where
  id : Nat
  doctor_id : Nat
  patient_name : String
  patient_id : Option String
  status : ConsultationStatus

/-- The row built by the insert of `handleSubmit` (lines 32-40):
`patient_name`, `patient_id: patientId || null`, `doctor_id` of the acting
user; `id` and `status` come from the schema defaults
`gen_random_uuid()` and `'in_progress'` (migration lines 14 and 19). -/
def newConsultationRow (freshId doctorId : Nat)
    (patientName patientId : String) : ConsultationRow :=
  ⟨freshId, doctorId, patientName,
    (if patientId = "" then none else some patientId),
    ConsultationStatus.in_progress⟩

/-- Effect of the `handleSubmit` insert on the `consultations` table. -/
def handleSubmitInsert (table : List ConsultationRow) (freshId doctorId : Nat)
    (patientName patientId : String) : List ConsultationRow :=
  table ++ [newConsultationRow freshId doctorId patientName patientId]

/-! ## Helper lemmas -/

/-- Dropping a satisfied predicate from a list all of whose elements
satisfy it leaves nothing. -/
theorem dropWhile_eq_nil_of_all {p : Char → Bool} :
    ∀ {l : List Char}, l.all p = true → l.dropWhile p = []
  | [], _ => rfl
  | c :: t, h => by
      have hc : p c = true ∧ t.all p = true := by simpa using h
      rw [List.dropWhile_cons_of_pos hc.1]
      exact dropWhile_eq_nil_of_all hc.2

/-- A string made only of JS whitespace trims to the empty string. -/
theorem jsTrim_eq_empty_of_all {s : String}
    (h : s.data.all isJsWhitespace = true) : jsTrim s = "" := by
  unfold jsTrim
  rw [dropWhile_eq_nil_of_all h]
  rfl

/-- Every row of an upserted table was already present or is the upserted
row itself. -/
theorem mem_upsertOnPrimaryKey {table : List MedicalNoteRow}
    {row r : MedicalNoteRow} (h : r ∈ upsertOnPrimaryKey table row) :
    r ∈ table ∨ r = row := by
  unfold upsertOnPrimaryKey at h
  split at h
  · obtain ⟨a, ha, hf⟩ := List.mem_map.mp h
    by_cases hid : a.id = row.id
    · right
      rw [if_pos hid] at hf
      exact hf.symm
    · left
      rw [if_neg hid] at hf
      exact hf ▸ ha
  · rcases List.mem_append.mp h with h1 | h2
    · exact Or.inl h1
    · exact Or.inr (by simpa using h2)

/-- The poll loop body returns timeout whenever the vendor status stays
`processing`, whatever the attempt budget. -/
theorem pollFuel_timeout (status : Nat → PollStatus)
    (h : ∀ n, status n = PollStatus.processing) :
    ∀ fuel attempts, pollFuel status attempts fuel = PollResult.timeout := by
  intro fuel
  induction fuel with
  | zero => intro a; rfl
  | succ n ih =>
      intro a
      simp only [pollFuel, h a]
      exact ih (a + 1)

/-! ## Claim theorems -/

/-- C1: the claim states that the note write of
`handleTranscriptionComplete` is an upsert keyed on the consultation id,
so a second call for the same consultation overwrites the existing row.
The code violates this: the supabase upsert has no `onConflict` option,
so its conflict target is the primary key `id`, which is freshly
generated on each call (the payload carries no `id`), and no migration
puts a UNIQUE constraint on `medical_notes.consultation_id`.  Two calls
for consultation 0 (transcripts "hello" then "world", generated primary
keys 1 then 2) therefore leave TWO rows for that consultation. -/
theorem second_transcription_inserts_second_row :
    ((handleTranscriptionComplete 0 "world"
        (handleTranscriptionComplete 0 "hello" [] 1 false).notes
        2 false).notes.length = 2) ∧
    ((handleTranscriptionComplete 0 "world"
        (handleTranscriptionComplete 0 "hello" [] 1 false).notes
        2 false).notes.map (fun r => r.consultation_id) = [0, 0]) ∧
    ((handleTranscriptionComplete 0 "world"
        (handleTranscriptionComplete 0 "hello" [] 1 false).notes
        2 false).notes.map (fun r => r.raw_transcript) = ["hello", "world"]) :=
  ⟨rfl, rfl, rfl⟩

/-- C2 counterexample: for the Gemini-based note-generation function
(`supabase/functions/generate-soap-note/index.ts`), a vendor response
that is not valid JSON (parse result `none`) makes the function fail its
boundary with a 500 error response, not a note object with four string
fields. -/
theorem gemini_parse_failure_returns_500 :
    (geminiParseStep "I am not JSON" none "Unexpected token").status = 500 ∧
    hasFourStringFields
      (geminiParseStep "I am not JSON" none "Unexpected token").body = false :=
  ⟨rfl, rfl⟩

/-- C2 amended: on a vendor response that is not valid JSON, the
OpenAI-based note-generation function (`src/unnamed/part_004`) returns a
200 note object with four string fields, the raw vendor text in
`subjective` and the other three fields marked unparsed; the Gemini-based
function (`supabase/functions/generate-soap-note/index.ts`) instead
returns a 500 error response. -/
theorem parse_failure_fallback_behavior (content parseErrorMsg : String) :
    (openaiParseStep content none).status = 200 ∧
    hasFourStringFields (openaiParseStep content none).body = true ∧
    Json.getField (openaiParseStep content none).body "subjective" =
      some (Json.str content) ∧
    Json.getField (openaiParseStep content none).body "objective" =
      some (Json.str unparsedMarker) ∧
    Json.getField (openaiParseStep content none).body "assessment" =
      some (Json.str unparsedMarker) ∧
    Json.getField (openaiParseStep content none).body "plan" =
      some (Json.str unparsedMarker) ∧
    (geminiParseStep content none parseErrorMsg).status = 500 :=
  ⟨rfl, rfl, rfl, rfl, rfl, rfl, rfl⟩

/-- C3: on the empty transcript, `handleTranscriptionComplete` never
throws (the whole body is inside try/catch), and when the upsert
succeeds the stored note has `raw_transcript = "Transcription failed"`
and `subjective` equal to the fixed placeholder. -/
theorem empty_transcript_stores_placeholder (cid : Nat)
    (notes : List MedicalNoteRow) (freshId : Nat) (dbError : Bool) :
    (handleTranscriptionComplete cid "" notes freshId dbError).threw = false ∧
    (dbError = false →
      ((handleTranscriptionComplete cid "" notes freshId dbError).stored.map
          (fun r => r.raw_transcript) = some "Transcription failed") ∧
      ((handleTranscriptionComplete cid "" notes freshId dbError).stored.map
          (fun r => r.subjective) = some placeholderText)) := by
  unfold handleTranscriptionComplete
  rw [if_pos (Or.inl rfl)]
  cases dbError
  · exact ⟨rfl, fun _ => ⟨rfl, rfl⟩⟩
  · exact ⟨rfl, fun h => absurd h (by simp)⟩

/-- C3 witness at a concrete call. -/
theorem empty_transcript_stores_placeholder_witness :
    (handleTranscriptionComplete 0 "" [] 1 false).threw = false ∧
    ((handleTranscriptionComplete 0 "" [] 1 false).stored.map
        (fun r => r.raw_transcript) = some "Transcription failed") ∧
    ((handleTranscriptionComplete 0 "" [] 1 false).stored.map
        (fun r => r.subjective) = some placeholderText) :=
  ⟨(empty_transcript_stores_placeholder 0 [] 1 false).1,
   (empty_transcript_stores_placeholder 0 [] 1 false).2 rfl⟩

/-- C4 counterexample: the transcript `" "` is non-empty, yet
`handleTranscriptionComplete` takes the placeholder branch — the stored
`subjective` is the fixed placeholder, not the input, and
`raw_transcript` is `"Transcription failed"`, not the input. -/
theorem space_transcript_not_stored_verbatim :
    ((handleTranscriptionComplete 0 " " [] 1 false).stored.map
        (fun r => r.subjective) = some placeholderText) ∧
    placeholderText ≠ " " ∧
    ((handleTranscriptionComplete 0 " " [] 1 false).stored.map
        (fun r => r.raw_transcript) = some "Transcription failed") :=
  ⟨rfl, by decide, rfl⟩

/-- C4 amended: for every transcript whose trimmed form is non-empty,
the stored note's `subjective` and `raw_transcript` both equal the input
transcript exactly, and the call does not throw. -/
theorem nonblank_transcript_stored_verbatim (cid : Nat)
    (notes : List MedicalNoteRow) (freshId : Nat) (transcript : String)
    (h : (jsTrim transcript).length ≠ 0) :
    ((handleTranscriptionComplete cid transcript notes freshId false).stored.map
        (fun r => r.subjective) = some transcript) ∧
    ((handleTranscriptionComplete cid transcript notes freshId false).stored.map
        (fun r => r.raw_transcript) = some transcript) ∧
    (handleTranscriptionComplete cid transcript notes freshId false).threw
        = false := by
  have hne : transcript ≠ "" := by
    intro he
    subst he
    exact h rfl
  have hcond : ¬(transcript = "" ∨ (jsTrim transcript).length = 0) := by
    rintro (h1 | h2)
    · exact hne h1
    · exact h h2
  unfold handleTranscriptionComplete
  rw [if_neg hcond]
  refine ⟨?_, rfl, rfl⟩
  simp [hne]

/-- C4 amended, witness at the spec's example transcript. -/
theorem nonblank_transcript_stored_verbatim_witness :
    (jsTrim "Patient reports headache for 3 days.").length ≠ 0 ∧
    ((handleTranscriptionComplete 0 "Patient reports headache for 3 days."
        [] 1 false).stored.map (fun r => r.subjective) =
      some "Patient reports headache for 3 days.") ∧
    ((handleTranscriptionComplete 0 "Patient reports headache for 3 days."
        [] 1 false).stored.map (fun r => r.raw_transcript) =
      some "Patient reports headache for 3 days.") :=
  ⟨by decide,
   (nonblank_transcript_stored_verbatim 0 [] 1
      "Patient reports headache for 3 days." (by decide)).1,
   (nonblank_transcript_stored_verbatim 0 [] 1
      "Patient reports headache for 3 days." (by decide)).2.1⟩

/-- C5 counterexample: when the transcription backend reports an error
(for example `Transcription timeout`), `transcribeAudio` does NOT invoke
note creation — its catch block only shows an error toast, so the
recording is discarded. -/
theorem failed_transcription_skips_note_creation :
    (transcribeAudio (BackendResult.errorField "Transcription timeout")).isNoteCreation
        = false ∧
    transcribeAudio (BackendResult.errorField "Transcription timeout") =
      TranscribeOutcome.errorToast
        "Failed to transcribe audio: Transcription timeout" :=
  ⟨rfl, rfl⟩

/-- C5 amended: when transcription succeeds but yields empty or
whitespace-only text, the caller substitutes the fixed placeholder and
still invokes note creation; when transcription fails (backend HTTP
failure or a vendor-reported error), the caller surfaces an error toast
and does not invoke note creation. -/
theorem empty_text_placeholder_failure_toast (t body msg : String) :
    ((t = "" ∨ (jsTrim t).length = 0) →
      transcribeAudio (BackendResult.text t) =
        TranscribeOutcome.noteCreation noSpeechPlaceholder) ∧
    (transcribeAudio (BackendResult.httpError body)).isNoteCreation = false ∧
    (transcribeAudio (BackendResult.errorField msg)).isNoteCreation = false := by
  refine ⟨fun h => ?_, rfl, rfl⟩
  have hs : transcribeWithAssemblyAIStreaming (BackendResult.text t) =
      StreamingStep.callNote noSpeechPlaceholder := by
    unfold transcribeWithAssemblyAIStreaming
    exact if_pos h
  unfold transcribeAudio
  rw [hs]

/-- C5 amended, witness at empty text and a failing backend. -/
theorem empty_text_placeholder_failure_toast_witness :
    (("" : String) = "" ∨ (jsTrim "").length = 0) ∧
    transcribeAudio (BackendResult.text "") =
      TranscribeOutcome.noteCreation noSpeechPlaceholder ∧
    (transcribeAudio (BackendResult.httpError "boom")).isNoteCreation = false :=
  ⟨Or.inl rfl,
   (empty_text_placeholder_failure_toast "" "boom" "x").1 (Or.inl rfl),
   (empty_text_placeholder_failure_toast "" "boom" "x").2.1⟩

/-- C6: if the vendor status never becomes `completed` and never reports
an error, both poll loops (cap 30 in `transcribe-assemblyai`, cap 60 in
`transcribe-audio`) terminate with a timeout, and the serve handler
surfaces it as a 500 `Transcription timeout` response. -/
theorem poll_loop_times_out (status : Nat → PollStatus)
    (h : ∀ n, status n = PollStatus.processing) :
    pollLoop status assemblyMaxAttempts = PollResult.timeout ∧
    pollLoop status audioMaxAttempts = PollResult.timeout ∧
    pollHttpResponse (pollLoop status assemblyMaxAttempts) =
      (500, "Transcription timeout") ∧
    pollHttpResponse (pollLoop status audioMaxAttempts) =
      (500, "Transcription timeout") := by
  have h30 : pollLoop status assemblyMaxAttempts = PollResult.timeout :=
    pollFuel_timeout status h assemblyMaxAttempts 0
  have h60 : pollLoop status audioMaxAttempts = PollResult.timeout :=
    pollFuel_timeout status h audioMaxAttempts 0
  exact ⟨h30, h60, by rw [h30]; rfl, by rw [h60]; rfl⟩

/-- C6 witness at the constantly-processing vendor. -/
theorem poll_loop_times_out_witness :
    pollLoop (fun _ => PollStatus.processing) assemblyMaxAttempts =
      PollResult.timeout ∧
    pollLoop (fun _ => PollStatus.processing) audioMaxAttempts =
      PollResult.timeout :=
  ⟨(poll_loop_times_out (fun _ => PollStatus.processing) (fun _ => rfl)).1,
   (poll_loop_times_out (fun _ => PollStatus.processing) (fun _ => rfl)).2.1⟩

/-- C7: `saveNote` maps each row of the table through `applySaveNote`:
the row with the note's id gets the four SOAP fields and
`is_reviewed = true`, every other row is untouched, and `raw_transcript`
(as well as `id`, `consultation_id` and `extracted_entities`) is never
altered. -/
theorem saveNote_sets_reviewed_keeps_transcript
    (table : List MedicalNoteRow) (note : SoapUpdate)
    (r : MedicalNoteRow) (hr : r ∈ table) :
    (handleSaveNote table note).length = table.length ∧
    applySaveNote note r ∈ handleSaveNote table note ∧
    (applySaveNote note r).raw_transcript = r.raw_transcript ∧
    (applySaveNote note r).id = r.id ∧
    (applySaveNote note r).consultation_id = r.consultation_id ∧
    (r.id = note.id →
      (applySaveNote note r).is_reviewed = true ∧
      (applySaveNote note r).subjective = note.subjective ∧
      (applySaveNote note r).objective = note.objective ∧
      (applySaveNote note r).assessment = note.assessment ∧
      (applySaveNote note r).plan = note.plan) ∧
    (r.id ≠ note.id → applySaveNote note r = r) := by
  refine ⟨by simp [handleSaveNote], List.mem_map_of_mem _ hr, ?_, ?_, ?_, ?_, ?_⟩
  all_goals
    unfold applySaveNote
    by_cases hid : r.id = note.id <;> simp [hid]

/-- C7 witness: saving onto a one-row table. -/
theorem saveNote_sets_reviewed_keeps_transcript_witness :
    (⟨5, 3, "s", "o", "a", "p", "raw", Json.obj [], false⟩ : MedicalNoteRow) ∈
      [(⟨5, 3, "s", "o", "a", "p", "raw", Json.obj [], false⟩ : MedicalNoteRow)] ∧
    (handleSaveNote
        [⟨5, 3, "s", "o", "a", "p", "raw", Json.obj [], false⟩]
        ⟨5, "S2", "O2", "A2", "P2"⟩).length = 1 ∧
    (applySaveNote ⟨5, "S2", "O2", "A2", "P2"⟩
        ⟨5, 3, "s", "o", "a", "p", "raw", Json.obj [], false⟩).raw_transcript
      = "raw" ∧
    (applySaveNote ⟨5, "S2", "O2", "A2", "P2"⟩
        ⟨5, 3, "s", "o", "a", "p", "raw", Json.obj [], false⟩).is_reviewed
      = true :=
  ⟨List.mem_singleton.mpr rfl,
   (saveNote_sets_reviewed_keeps_transcript
      [⟨5, 3, "s", "o", "a", "p", "raw", Json.obj [], false⟩]
      ⟨5, "S2", "O2", "A2", "P2"⟩
      ⟨5, 3, "s", "o", "a", "p", "raw", Json.obj [], false⟩
      (List.mem_singleton.mpr rfl)).1,
   (saveNote_sets_reviewed_keeps_transcript
      [⟨5, 3, "s", "o", "a", "p", "raw", Json.obj [], false⟩]
      ⟨5, "S2", "O2", "A2", "P2"⟩
      ⟨5, 3, "s", "o", "a", "p", "raw", Json.obj [], false⟩
      (List.mem_singleton.mpr rfl)).2.2.1,
   ((saveNote_sets_reviewed_keeps_transcript
      [⟨5, 3, "s", "o", "a", "p", "raw", Json.obj [], false⟩]
      ⟨5, "S2", "O2", "A2", "P2"⟩
      ⟨5, 3, "s", "o", "a", "p", "raw", Json.obj [], false⟩
      (List.mem_singleton.mpr rfl)).2.2.2.2.2.1 rfl).1⟩

/-- C8: every write performed by `handleTranscriptionComplete` stores
the note with `is_reviewed = false`: the row it returns into component
state is unreviewed, and every row of the resulting table either was
already there or is unreviewed.  (Only `handleSaveNote` sets the flag;
see the C7 theorem.) -/
theorem transcript_write_is_unreviewed (cid : Nat) (transcript : String)
    (notes : List MedicalNoteRow) (freshId : Nat) (dbError : Bool)
    (r : MedicalNoteRow) :
    ((handleTranscriptionComplete cid transcript notes freshId dbError).stored
        = some r → r.is_reviewed = false) ∧
    (r ∈ (handleTranscriptionComplete cid transcript notes freshId dbError).notes
        → r ∈ notes ∨ r.is_reviewed = false) := by
  constructor
  · intro h
    unfold handleTranscriptionComplete at h
    split_ifs at h <;> simp_all <;> subst h <;> rfl
  · intro hm
    unfold handleTranscriptionComplete at hm
    split_ifs at hm
    · exact Or.inl hm
    · rcases mem_upsertOnPrimaryKey hm with h | h
      · exact Or.inl h
      · subst h; exact Or.inr rfl
    · exact Or.inl hm
    · rcases mem_upsertOnPrimaryKey hm with h | h
      · exact Or.inl h
      · subst h; exact Or.inr rfl

/-- C8 witness at a concrete transcript-arrival write. -/
theorem transcript_write_is_unreviewed_witness :
    (handleTranscriptionComplete 0 "hi" [] 1 false).stored =
      some ⟨1, 0, "hi", "", "", "", "hi", Json.obj [], false⟩ ∧
    (⟨1, 0, "hi", "", "", "", "hi", Json.obj [], false⟩ :
      MedicalNoteRow).is_reviewed = false :=
  ⟨rfl,
   (transcript_write_is_unreviewed 0 "hi" [] 1 false
      ⟨1, 0, "hi", "", "", "", "hi", Json.obj [], false⟩).1 rfl⟩

/-- C9: for a non-empty patient name and a database-generated id that is
fresh, the new-consultation insert appends one row owned by the acting
practitioner with status `in_progress` (the schema default) and an id
distinct from every existing consultation's id. -/
theorem createConsultation_in_progress_fresh_id
    (table : List ConsultationRow) (freshId doctorId : Nat)
    (patientName patientId : String)
    (_hname : patientName ≠ "")
    (hfresh : ∀ r ∈ table, r.id ≠ freshId) :
    (handleSubmitInsert table freshId doctorId patientName patientId).length
        = table.length + 1 ∧
    newConsultationRow freshId doctorId patientName patientId ∈
      handleSubmitInsert table freshId doctorId patientName patientId ∧
    (newConsultationRow freshId doctorId patientName patientId).status
        = ConsultationStatus.in_progress ∧
    (newConsultationRow freshId doctorId patientName patientId).doctor_id
        = doctorId ∧
    (newConsultationRow freshId doctorId patientName patientId).patient_name
        = patientName ∧
    (∀ r ∈ table,
      r.id ≠ (newConsultationRow freshId doctorId patientName patientId).id) :=
  ⟨by simp [handleSubmitInsert], by simp [handleSubmitInsert],
   rfl, rfl, rfl, hfresh⟩

/-- C9 witness: inserting for "John Doe" next to one existing row. -/
theorem createConsultation_in_progress_fresh_id_witness :
    ("John Doe" : String) ≠ "" ∧
    (∀ r ∈ [(⟨7, 2, "Prior", none, ConsultationStatus.completed⟩ :
        ConsultationRow)], r.id ≠ 3) ∧
    (handleSubmitInsert [⟨7, 2, "Prior", none, ConsultationStatus.completed⟩]
        3 2 "John Doe" "").length = 2 ∧
    (newConsultationRow 3 2 "John Doe" "").status =
      ConsultationStatus.in_progress :=
  ⟨by decide, by decide,
   (createConsultation_in_progress_fresh_id
      [⟨7, 2, "Prior", none, ConsultationStatus.completed⟩] 3 2 "John Doe" ""
      (by decide) (by decide)).1,
   (createConsultation_in_progress_fresh_id
      [⟨7, 2, "Prior", none, ConsultationStatus.completed⟩] 3 2 "John Doe" ""
      (by decide) (by decide)).2.2.1⟩

/-- C10: a transcript made only of whitespace characters takes the same
branch as the empty string — the call's result is identical, so the
stored note's `subjective` is the fixed placeholder and its
`raw_transcript` is `"Transcription failed"`; the whitespace text itself
is not stored. -/
theorem whitespace_transcript_same_as_empty (cid : Nat)
    (notes : List MedicalNoteRow) (freshId : Nat) (transcript : String)
    (h : transcript.data.all isJsWhitespace = true) :
    handleTranscriptionComplete cid transcript notes freshId false =
      handleTranscriptionComplete cid "" notes freshId false ∧
    ((handleTranscriptionComplete cid transcript notes freshId false).stored.map
        (fun r => r.subjective) = some placeholderText) ∧
    ((handleTranscriptionComplete cid transcript notes freshId false).stored.map
        (fun r => r.raw_transcript) = some "Transcription failed") := by
  have htrim : (jsTrim transcript).length = 0 := by
    rw [jsTrim_eq_empty_of_all h]
    rfl
  have hcond : transcript = "" ∨ (jsTrim transcript).length = 0 := Or.inr htrim
  refine ⟨?_, ?_, ?_⟩
  · unfold handleTranscriptionComplete
    rw [if_pos hcond, if_pos (Or.inl rfl)]
  · unfold handleTranscriptionComplete
    rw [if_pos hcond]
    rfl
  · unfold handleTranscriptionComplete
    rw [if_pos hcond]
    rfl

/-- C10 witness at the transcript `" \t "`. -/
theorem whitespace_transcript_same_as_empty_witness :
    (" \t ".data.all isJsWhitespace = true) ∧
    handleTranscriptionComplete 0 " \t " [] 1 false =
      handleTranscriptionComplete 0 "" [] 1 false ∧
    ((handleTranscriptionComplete 0 " \t " [] 1 false).stored.map
        (fun r => r.subjective) = some placeholderText) :=
  ⟨by decide,
   (whitespace_transcript_same_as_empty 0 [] 1 " \t " (by decide)).1,
   (whitespace_transcript_same_as_empty 0 [] 1 " \t " (by decide)).2.1⟩

end Medinote
